import Mathlib

/-!
Shallow embedding of the music-screen-api WiiM core (wiim_client.py,
wiim_upnp.py, go_wiim.py) and proofs about its specified behaviour.

Python values parsed from device JSON are modelled by `Json`; the Python
`None` value and JSON `null` are both `Json.null`.  Network I/O is modelled by
oracle functions from request URLs to responses, so that every embedded
operation is a pure, executable Lean function of its inputs and its
oracle.
-/

namespace Wiim

/-- Python/JSON values as they appear after `json.loads`. -/
inductive Json where
  | null
  | bool (b : Bool)
  | num (n : Int)
  | str (s : String)
  | arr (xs : List Json)
  | obj (fields : List (String × Json))
deriving Repr

/-- Python truthiness of a parsed JSON value (`if v:`). -/
def Json.truthy : Json → Bool
  | .null => false
  | .bool b => b
  | .num n => n != 0
  | .str s => !s.isEmpty
  | .arr xs => !xs.isEmpty
  | .obj fs => !fs.isEmpty

/-- Python `isinstance(v, dict)`. -/
def Json.isDict : Json → Bool
  | .obj _ => true
  | _ => false

/-- Python `d.get(k)` on a dict (absent key yields `None`, i.e. `null`). -/
def Json.get : Json → String → Json
  | .obj fs, k => (((fs.find? (fun p => p.1 == k)).map Prod.snd)).getD .null
  | _, _ => .null

/-- Python `a or b` on parsed values. -/
def pyOr (a b : Json) : Json := if a.truthy then a else b

/-- Python `v or ""` followed by use as a string: `null` and the empty
string give `""`, a string gives itself.  (Non-string truthy values
would raise in the source; they do not occur in the records the device
client builds.) -/
def jsonOrEmptyStr (j : Json) : String :=
  match (if j.truthy then j else Json.str "") with
  | .str s => s
  | _ => ""

/-- Outcome of one `session.get` + `resp.json()` as observed by
`wiim_client._fetch_json`: a network-level failure (timeout,
`ClientError`, connection refused), or a response with a status code and
a body that either parses as JSON (`some j`) or does not (`none`,
in which case `resp.json()` raises). -/
inductive HttpJsonResponse where
  | netError
  | resp (status : Nat) (body : Option Json)
deriving Repr

/- ---------------------------------------------------------------------
List-based string operations.  Core String functions such as trim,
toLower, replace and startsWith are implemented in Lean via byte-position
loops that the kernel cannot reduce, so the Python string operations this
program uses are modelled over `List Char` instead.
--------------------------------------------------------------------- -/

/-- Python `s.startswith(pre)`. -/
def strStarts (s pre : String) : Bool :=
  pre.toList.isPrefixOf s.toList

/-- The whitespace characters Python `str.strip()` removes (the form
feeds and vertical tabs it also strips never occur here). -/
def isPySpace (c : Char) : Bool :=
  c == ' ' || c == '\t' || c == '\n' || c == '\r'

/-- Python `s.strip()`. -/
def strStrip (s : String) : String :=
  String.mk (((s.toList.dropWhile isPySpace).reverse.dropWhile isPySpace).reverse)

/-- Python `s.lower()` (ASCII case folding suffices here). -/
def strLower (s : String) : String :=
  String.mk (s.toList.map Char.toLower)

/-- Whether `sub` occurs as a contiguous sublist of the second list. -/
def isSubListOf (sub : List Char) : List Char → Bool
  | [] => sub.isEmpty
  | c :: rest => sub.isPrefixOf (c :: rest) || isSubListOf sub rest

/-- Python `sub in s` (substring containment). -/
def strContains (s sub : String) : Bool :=
  isSubListOf sub.toList s.toList

/-- Fuel-driven replacement of every non-overlapping occurrence of `sep`
(left to right); the fuel is the input length, enough because every step
consumes at least one character. -/
def replaceFuel (sep repl : List Char) : Nat → List Char → List Char
  | 0, xs => xs
  | _ + 1, [] => []
  | n + 1, c :: rest =>
    if sep.isPrefixOf (c :: rest) && !sep.isEmpty then
      repl ++ replaceFuel sep repl n ((c :: rest).drop sep.length)
    else c :: replaceFuel sep repl n rest

/-- Python `s.replace(sep, repl)` for a non-empty `sep`. -/
def strReplace (s sep repl : String) : String :=
  String.mk (replaceFuel sep.toList repl.toList s.toList.length s.toList)

/-- Split at the first occurrence of `sep`, returning the parts before
and after it. -/
def splitFirst (sep : List Char) : List Char → Option (List Char × List Char)
  | [] => none
  | c :: rest =>
    if sep.isPrefixOf (c :: rest) then some ([], (c :: rest).drop sep.length)
    else
      match splitFirst sep rest with
      | some (pre, post) => some (c :: pre, post)
      | none => none

/-- Digit-string to number (models `int(p)` on a port string; anything
non-numeric yields `none`). -/
def digitsToNat (cs : List Char) : Option Nat :=
  if cs.isEmpty || !(cs.all Char.isDigit) then none
  else some (cs.foldl (fun acc c => acc * 10 + (c.toNat - 48)) 0)

/- ---------------------------------------------------------------------
wiim_client.py
--------------------------------------------------------------------- -/

/-- Drop trailing slash characters: Python `s.rstrip("/")`. -/
def rstripSlash (s : String) : String :=
  String.mk ((s.toList.reverse.dropWhile (fun c => c = '/')).reverse)

/-- Embedding of `wiim_client._normalise_base` (wiim_client.py lines 18-25). -/
def _normalise_base (base : String) : String :=
  if base.isEmpty then "" else
  let base := strStrip base
  if strStarts base "http://" || strStarts base "https://" then
    rstripSlash base
  else
    "https://" ++ rstripSlash base

/-- Embedding of `wiim_client._fetch_json` (wiim_client.py lines 28-36): every
exception (network failure, body that fails to parse) is caught and
yields `None`; the HTTP status code is not inspected. -/
def _fetch_json : HttpJsonResponse → Option Json
  | .netError => none
  | .resp _ none => none
  | .resp _ (some j) => some j

/-- The `scheme://host[:port]` part of a URL of the restricted shape
`scheme://host[:port][/path...]` used by this program. -/
def urlOrigin (b : String) : String :=
  match splitFirst "://".toList b.toList with
  | some (scheme, rest) =>
    String.mk scheme ++ "://" ++ String.mk (rest.takeWhile (fun c => c != '/'))
  | none => b

/-- Model of `urllib.parse.urljoin`, restricted to the shapes this program uses:
the base is `scheme://host[:port][/...]` and the joined part is either an
absolute URL or a path (absolute or relative). -/
def urljoinModel (base rel : String) : String :=
  if strStarts rel "http://" || strStarts rel "https://" then rel
  else if strStarts rel "/" then urlOrigin base ++ rel
  else urlOrigin base ++ "/" ++ rel

/-- The normalized playback record built by `get_now_playing`
(keys artist, title, album, album_art_uri, state; `null` = unknown). -/
structure NowPlaying where
  artist : Json
  title : Json
  album : Json
  album_art_uri : Json
  state : Json
deriving Repr

/-- The all-unknown record `get_now_playing` starts from. -/
def emptyNowPlaying : NowPlaying :=
  ⟨.null, .null, .null, .null, .null⟩

/-- The metadata-parsing half of `get_now_playing` (wiim_client.py
lines 59-67): a truthy dict with a dict `metaData`/`meta_data` member
fills the artist/title/album/artwork fields. -/
def applyMeta (meta : Option Json) (result : NowPlaying) : NowPlaying :=
  match meta with
  | some m =>
    if m.truthy && m.isDict then
      let md := pyOr (m.get "metaData") (pyOr (m.get "meta_data") (.obj []))
      if md.isDict then
        { result with
          artist := md.get "artist"
          title := md.get "title"
          album := md.get "album"
          album_art_uri := pyOr (md.get "albumArtURI") (md.get "album_art_uri") }
      else result
    else result
  | none => result

/-- The player-status half of `get_now_playing` (wiim_client.py lines
69-71): a truthy dict fills the state field. -/
def applyStatus (status : Option Json) (result : NowPlaying) : NowPlaying :=
  match status with
  | some st =>
    if st.truthy && st.isDict then
      { result with state := pyOr (st.get "status") (pyOr (st.get "playbackState") .null) }
    else result
  | none => result

/-- Embedding of `wiim_client.get_now_playing` (wiim_client.py lines 39-76), with the
two HTTP fetches factored through the oracle `net : url → response`. -/
def get_now_playing (net : String → HttpJsonResponse) (base_url : String) :
    NowPlaying :=
  if base_url.isEmpty then emptyNowPlaying else
  let base := _normalise_base base_url
  if base.isEmpty then emptyNowPlaying else
  let meta_url := urljoinModel base "/httpapi.asp?command=getMetaInfo"
  let status_url := urljoinModel base "/httpapi.asp?command=getPlayerStatus"
  let meta := _fetch_json (net meta_url)
  let status := _fetch_json (net status_url)
  applyStatus status (applyMeta meta emptyNowPlaying)

/- ---------------------------------------------------------------------
URL / string library models (urllib.parse)
--------------------------------------------------------------------- -/

/-- Upper-case hexadecimal digit. -/
def hexDigit (n : Nat) : Char :=
  if n < 10 then Char.ofNat (48 + n) else Char.ofNat (55 + n)

/-- Percent-encoding of one byte as `%XX`. -/
def percentByte (b : Nat) : String :=
  String.mk ['%', hexDigit (b / 16), hexDigit (b % 16)]

/-- The UTF-8 byte sequence of a character. -/
def utf8Bytes (c : Char) : List Nat :=
  let n := c.toNat
  if n < 128 then [n]
  else if n < 2048 then [192 + n / 64, 128 + n % 64]
  else if n < 65536 then [224 + n / 4096, 128 + (n / 64) % 64, 128 + n % 64]
  else [240 + n / 262144, 128 + (n / 4096) % 64, 128 + (n / 64) % 64, 128 + n % 64]

/-- Model of `urllib.parse.quote_plus` on one character: unreserved characters
kept, space becomes `+`, everything else percent-encoded per UTF-8 byte. -/
def quotePlusChar (c : Char) : String :=
  if c.isAlphanum || c = '-' || c = '_' || c = '.' || c = '~' then String.mk [c]
  else if c = ' ' then "+"
  else String.join ((utf8Bytes c).map percentByte)

/-- Model of `urllib.parse.quote_plus`. -/
def quote_plus (s : String) : String :=
  String.join (s.toList.map quotePlusChar)

/-- Python `tpl.format(artist=..., track=...)` for the `{artist}`/`{track}`
placeholders used by the art templates. -/
def formatArtistTrack (tpl artist_q track_q : String) : String :=
  strReplace (strReplace tpl "{artist}" artist_q) "{track}" track_q

/-- The fields of `urllib.parse.urlparse` this program reads. -/
structure ParsedUrl where
  scheme : String
  hostname : String
  port : Option Nat
deriving Repr, DecidableEq

/-- Model of `urllib.parse.urlparse` restricted to the `scheme://host[:port][/…]`
shapes this program feeds it (no IPv6 bracket hosts, no userinfo). -/
def urlparseModel (u : String) : ParsedUrl :=
  match splitFirst "://".toList u.toList with
  | none => ⟨"", u, none⟩
  | some (scheme, rest) =>
    let hostport := rest.takeWhile (fun c => c != '/')
    match splitFirst [':'] hostport with
    | none => ⟨String.mk scheme, String.mk hostport, none⟩
    | some (h, p) =>
      if p.contains ':' then ⟨String.mk scheme, String.mk hostport, none⟩
      else ⟨String.mk scheme, String.mk h, digitsToNat p⟩

/-- The default-port string for a scheme, as the source writes it. -/
def defaultPortStr (scheme : String) : String :=
  if scheme = "https" then "443" else "80"

/-- Python `parsed.port or default` (an absent or zero port is falsy). -/
def portOrDefault (port : Option Nat) (scheme : String) : String :=
  match port with
  | some n => if n = 0 then defaultPortStr scheme else toString n
  | none => defaultPortStr scheme

/-- The base-host string built from an SSDP LOCATION:
`f"{parsed.scheme}://{parsed.hostname}:{parsed.port or (default)}"`. -/
def locToBaseHost (loc : String) : String :=
  let p := urlparseModel loc
  p.scheme ++ "://" ++ p.hostname ++ ":" ++ portOrDefault p.port p.scheme

/-- The network-level target of a request URL: scheme, host and the
effective port (scheme default when the URL names none). -/
def effectiveTarget (url : String) : String × String × Nat :=
  let p := urlparseModel url
  (p.scheme, p.hostname, p.port.getD (if p.scheme = "https" then 443 else 80))

/- ---------------------------------------------------------------------
Image fetching (go_wiim.fetch_image, wiim_upnp._try_common_paths)
--------------------------------------------------------------------- -/

/-- Outcome of one HTTP GET as observed by the image-fetching helpers:
a failure (timeout/exception) or a response with status, content type
and body bytes. -/
inductive ImgResponse where
  | failure
  | resp (status : Nat) (contentType : String) (body : List Nat)
deriving Repr, DecidableEq

/-- PIL images as far as this program distinguishes them. -/
inductive PILImage where
  | opened (data : List Nat)
  | fetched (url : String)
  | new (mode : String) (w h : Nat) (color : String)
deriving Repr, DecidableEq

/-- Embedding of `go_wiim.fetch_image` (go_wiim.py lines 37-47): `None` for a falsy
URL, a failure, a non-200 status or a content type not starting with
`image/`. -/
def fetch_image (http : String → ImgResponse) (url : String) : Option PILImage :=
  if url.isEmpty then none
  else
    match http url with
    | .failure => none
    | .resp st ct _ =>
      if st == 200 && strStarts ct "image/" then some (.fetched url) else none

/-- Accept a response as album art: content type starts with `image/`
and status is 200 (`wiim_upnp._try_common_paths` / `get_image_data`). -/
def tryUrl (http : String → ImgResponse) (url : String) : Option (List Nat) :=
  match http url with
  | .failure => none
  | .resp st ct body => if strStarts ct "image/" && st == 200 then some body else none

/-- The ordered common-path templates of `wiim_upnp._try_common_paths`
(wiim_upnp.py lines 229-238). -/
def commonPathTemplates : List String :=
  [ "/albumart?artist={artist}&track={track}"
  , "/albumart.jpg?artist={artist}&track={track}"
  , "/nowplaying/albumart?artist={artist}&track={track}"
  , "/nowplaying.jpg"
  , "/now_playing.jpg"
  , "/image.jpg"
  , "/AlbumArt?artist={artist}&track={track}"
  , "/photo.jpg" ]

/-- Try a list of URLs in order, returning the first accepted body and
the list of URLs attempted (up to and including the hit). -/
def firstImage (http : String → ImgResponse) :
    List String → Option (List Nat) × List String
  | [] => (none, [])
  | u :: rest =>
    match tryUrl http u with
    | some d => (some d, [u])
    | none =>
      let (r, t) := firstImage http rest
      (r, u :: t)

/-- Embedding of `wiim_upnp._try_common_paths` (wiim_upnp.py lines 225-253); also
returns the attempted URLs. -/
def _try_common_paths (http : String → ImgResponse) (base artist track : String) :
    Option (List Nat) × List String :=
  let artist_q := quote_plus (strStrip artist)
  let track_q := quote_plus (strStrip track)
  firstImage http
    (commonPathTemplates.map (fun tpl => urljoinModel base (formatArtistTrack tpl artist_q track_q)))

/- ---------------------------------------------------------------------
wiim_upnp._test_httpapi and the endpoint cache
--------------------------------------------------------------------- -/

/-- The control-API probe path used by `_test_httpapi`. -/
def apiPath : String := "/httpapi.asp?command=getMetaInfo"

/-- The helper `try_one` inside `wiim_upnp._test_httpapi` (wiim_upnp.py lines
112-128): success iff status 200 and the body parses as JSON. -/
def try_one (net : String → HttpJsonResponse) (b : String) : Bool :=
  match net (urljoinModel b apiPath) with
  | .resp 200 (some _) => true
  | _ => false

/-- The ordered scheme/port variant list `_test_httpapi` builds from a
guess (wiim_upnp.py lines 130-152), before deduplication. -/
def testHttpapiVariants (base : String) : List String :=
  let parsed := urlparseModel base
  let host_only := parsed.scheme ++ "://" ++ parsed.hostname
  let alt_scheme := if parsed.scheme = "http" then "https" else "http"
  let alt_with_port :=
    alt_scheme ++ "://" ++ parsed.hostname ++ ":" ++ portOrDefault parsed.port alt_scheme
  let alt_host_only := alt_scheme ++ "://" ++ parsed.hostname
  [base, host_only, alt_with_port, alt_host_only]

/-- Order-preserving deduplication dropping falsy entries
(wiim_upnp.py lines 154-160). -/
def dedupKeepOrder (seen : List String) : List String → List String
  | [] => []
  | c :: rest =>
    if !c.isEmpty && !(seen.contains c) then
      c :: dedupKeepOrder (c :: seen) rest
    else
      dedupKeepOrder seen rest

/-- The deduplicated candidate list `_test_httpapi` iterates. -/
def testHttpapiCandidates (base : String) : List String :=
  dedupKeepOrder [] (testHttpapiVariants base)

/-- The guarded append `if c not in _CACHED_BASES: _CACHED_BASES.append(c)`
used everywhere the endpoint cache grows. -/
def addBase (cached : List String) (b : String) : List String :=
  if b ∈ cached then cached else cached ++ [b]

/-- The candidate loop of `_test_httpapi` (wiim_upnp.py lines 162-173):
first accepted candidate is appended to the cache (if absent) and ends
the probe.  Also returns the control-API URLs attempted. -/
def testLoop (net : String → HttpJsonResponse) (cached : List String) :
    List String → Bool × List String × List String
  | [] => (false, cached, [])
  | c :: rest =>
    if try_one net c then
      (true, addBase cached c, [urljoinModel c apiPath])
    else
      let (ok, cached', att) := testLoop net cached rest
      (ok, cached', urljoinModel c apiPath :: att)

/-- Embedding of `wiim_upnp._test_httpapi` (wiim_upnp.py lines 105-173), returning
(success, new cache, attempted URLs). -/
def _test_httpapi (net : String → HttpJsonResponse) (cached : List String)
    (base : String) : Bool × List String × List String :=
  testLoop net cached (testHttpapiCandidates base)

/- ---------------------------------------------------------------------
wiim_upnp.warmup
--------------------------------------------------------------------- -/

/-- The startup-configuration values the core reads
(`sonos_settings` attributes with their `getattr` defaults). -/
structure Settings where
  wiim_enabled : Bool
  wiim_albumart_url : String
  wiim_base_url : String
  art_failure_cooldown : ℤ
  base_empty_threshold : Nat
deriving Repr

/-- The network environment a `warmup` call observes: JSON fetches for
the API probe, LOCATION-document fetches (`none` = exception), image
fetches for the common-path fallback, and the SSDP search result. -/
structure WarmupEnv where
  net : String → HttpJsonResponse
  locText : String → Option String
  http : String → ImgResponse
  ssdpLocs : List String

/-- Whether the text of a LOCATION document carries a WiiM/linkplay or
HTTP-API hint (wiim_upnp.py lines 63-69). -/
def hintOf (text : String) : Bool :=
  let lowered := strLower text
  strContains lowered "linkplay" || strContains lowered "wiim" ||
  strContains lowered "wii m" || strContains lowered "httpapi.asp" ||
  strContains lowered "getmetainfo" || strContains lowered "getplayerstatus"

/-- The SSDP-validated base hosts of `warmup` (wiim_upnp.py lines
50-75): a discovered LOCATION whose document fetch succeeds and carries a
hint contributes its base-host form. -/
def validatedHosts (env : WarmupEnv) : List String :=
  (env.ssdpLocs.filterMap (fun loc =>
    match env.locText loc with
    | some text => if hintOf text then some (locToBaseHost loc) else none
    | none => none))

/-- The loop `for h in validated_hosts: if h not in bases: bases.append(h)`
(wiim_upnp.py lines 77-80). -/
def appendNew (bases : List String) : List String → List String
  | [] => bases
  | h :: rest => appendNew (if bases.contains h then bases else bases ++ [h]) rest

/-- The probe loop of `warmup` (wiim_upnp.py lines 84-98): each base is
API-tested (which may grow the cache), and on API failure falls back to
the common image paths.  Returns (responsive, cache after the loop,
attempted URLs). -/
def warmupProbeLoop (env : WarmupEnv) (cached : List String) :
    List String → List String × List String × List String
  | [] => ([], cached, [])
  | b :: rest =>
    let (ok, cached1, att1) := _test_httpapi env.net cached b
    if ok then
      let (resp, cached2, att2) := warmupProbeLoop env cached1 rest
      (b :: resp, cached2, att1 ++ att2)
    else
      let (data, att2) := _try_common_paths env.http b "" ""
      let hit := match data with | some d => !d.isEmpty | none => false
      let (resp, cached2, att3) := warmupProbeLoop env cached1 rest
      (if hit then b :: resp else resp, cached2, att1 ++ att2 ++ att3)

/-- What one `warmup` call returns and does. -/
structure WarmupResult where
  bases : List String
  cached : List String
  probed : Bool
  attempts : List String
deriving Repr

/-- Embedding of `wiim_upnp.warmup` (wiim_upnp.py lines 29-102).  `cached` is the
module-global `_CACHED_BASES` at entry; a non-empty cache short-circuits
the whole pass.  Otherwise configuration seeds the base list, SSDP
validation extends it, each base is probed, and the cache is assigned
the responsive list wholesale. -/
def warmup (env : WarmupEnv) (cfg : Settings) (cached : List String) :
    WarmupResult :=
  if !cached.isEmpty then ⟨cached, cached, false, []⟩
  else
    let bases0 := if cfg.wiim_base_url.isEmpty then [] else [cfg.wiim_base_url]
    let bases := appendNew bases0 (validatedHosts env)
    let (responsive, _, attempts) := warmupProbeLoop env cached bases
    ⟨responsive, responsive, true, attempts⟩

/- ---------------------------------------------------------------------
wiim_upnp.get_image_data
--------------------------------------------------------------------- -/

/-- Python truthiness of the bytes result `data` (`if data:`):
present and non-empty. -/
def truthyBytes : Option (List Nat) → Bool
  | some d => !d.isEmpty
  | none => false

/-- Try the common paths on every cached base in order
(wiim_upnp.py lines 304-311); `if data:` accepts only truthy bytes. -/
def tryBasesList (http : String → ImgResponse) (artist track : String) :
    List String → Option (List Nat) × List String
  | [] => (none, [])
  | b :: rest =>
    let (d, tr) := _try_common_paths http b artist track
    if truthyBytes d then (d, tr)
    else
      let (r, tr') := tryBasesList http artist track rest
      (r, tr ++ tr')

/-- The SSDP last-resort loop of `get_image_data` (wiim_upnp.py lines
313-331): a truthy hit caches the discovered base host. -/
def ssdpArtLoop (http : String → ImgResponse) (artist track : String)
    (cached : List String) : List String → Option (List Nat) × List String × List String
  | [] => (none, cached, [])
  | loc :: rest =>
    let bh := locToBaseHost loc
    let (d, tr) := _try_common_paths http bh artist track
    if truthyBytes d then (d, addBase cached bh, tr)
    else
      let (r, c', tr') := ssdpArtLoop http artist track cached rest
      (r, c', tr ++ tr')

/-- Embedding of `wiim_upnp.get_image_data` (wiim_upnp.py lines 256-333), returning
(image bytes, new cache, attempted URLs in order).  Strategy: explicit
template (absolute, else relative against the configured base), then
common paths on the configured base, then on every cached base, then on
SSDP-discovered hosts. -/
def get_image_data (cfg : Settings) (http : String → ImgResponse)
    (cached : List String) (ssdpLocs : List String) (artist track : String) :
    Option (List Nat) × List String × List String :=
  if !cfg.wiim_enabled then (none, cached, []) else
  let template := cfg.wiim_albumart_url
  let base := cfg.wiim_base_url
  let tplStep : Option (List Nat) × List String :=
    if !template.isEmpty then
      if strStarts template "http://" || strStarts template "https://" then
        let url := formatArtistTrack template (quote_plus (strStrip artist)) (quote_plus (strStrip track))
        (tryUrl http url, [url])
      else if base.isEmpty then (none, [])
      else
        let url := urljoinModel base
          (formatArtistTrack template (quote_plus (strStrip artist)) (quote_plus (strStrip track)))
        (tryUrl http url, [url])
    else (none, [])
  match tplStep with
  | (some d, tr) => (some d, cached, tr)
  | (none, tr0) =>
    let (baseData, tr1) :=
      if !base.isEmpty then _try_common_paths http base artist track else (none, [])
    if truthyBytes baseData then (baseData, cached, tr0 ++ tr1)
    else
      let (cachedData, tr2) := tryBasesList http artist track cached
      if truthyBytes cachedData then (cachedData, cached, tr0 ++ tr1 ++ tr2)
      else
        let (r, cached', tr3) := ssdpArtLoop http artist track cached ssdpLocs
        (r, cached', tr0 ++ tr1 ++ tr2 ++ tr3)

/- ---------------------------------------------------------------------
go_wiim touch handling (gesture multiplexer)
--------------------------------------------------------------------- -/

/-- The action a tap classifies to (go_wiim.py lines 72-95). -/
inductive TouchAction where
  | favorite
  | nextTrack
  | showDetails
deriving Repr, DecidableEq

/-- The tap-window eviction loop, popping stale timestamps from the left
while the head is older than the window (go_wiim.py lines 68-69). -/
def evictOld (times : List ℤ) (now window : ℤ) : List ℤ :=
  times.dropWhile (fun t => now - t > window)

/-- Embedding of `touch_callback` (go_wiim.py lines 63-95): append the tap, evict old
taps, classify by count (≥3 favorite, ≥2 next track, else show details).
The window is cleared on favorite and next track. -/
def touch_callback (touch_times : List ℤ) (now window : ℤ) :
    List ℤ × TouchAction :=
  let times := evictOld (touch_times ++ [now]) now window
  let cnt := times.length
  if cnt ≥ 3 then ([], .favorite)
  else if cnt ≥ 2 then ([], .nextTrack)
  else (times, .showDetails)

/-- Embedding of `_do_next` (go_wiim.py lines 81-92), counting how many
`wiim_client.next_track` device commands are issued.  `next_track`
itself is not under src/ (only this caller is); its outcome is
abstracted by the oracle `results i` = the ok flag of the i-th call.
The source issues one call and, only when it reports failure, exactly
one retry. -/
def _do_next (hasBase hasSession : Bool) (results : Nat → Bool) : Nat :=
  if !hasBase || !hasSession then 0
  else if results 0 then 1 else 2

/- ---------------------------------------------------------------------
go_wiim poll loop (track-change state machine)
--------------------------------------------------------------------- -/

/-- The external effects one poll tick can perform, in order. -/
inductive Action where
  | rotationAttempt
  | hideAlbum
  | fetchArtUri (url : String)
  | resolverAttempt (url : String)
  | invokeResolver (artist track : String)
  | displayUpdate (img : PILImage) (trackname artist album : String)
deriving Repr, DecidableEq

/-- The failure cache `_failed_art_cache` as a partial map (the source
uses a dict only through `get` and item assignment). -/
abbrev FailCache : Type := String → Option ℤ

/-- Python `_failed_art_cache.get(k)`. -/
def dictGet (d : FailCache) (k : String) : Option ℤ := d k

/-- Python `_failed_art_cache[k] = v`. -/
def dictSet (d : FailCache) (k : String) (v : ℤ) : FailCache :=
  fun q => if q = k then some v else d q

/-- The mutable state the poll loop carries across ticks: the current
base, `previous_track`, `_failed_art_cache`, `base_empty_count`, the
module-global `_CACHED_BASES`, and the `is_showing` flag of the display. -/
structure LoopState where
  base : String
  previous_track : Option String
  failed_art_cache : FailCache
  base_empty_count : Nat
  cachedBases : List String
  is_showing : Bool

/-- What one tick observes from outside: the fetched playback record,
the wall-clock time, the outcome of a rotation attempt (the new base
found by warmup/SSDP, if any), the image-fetch oracle and the SSDP
discovery result. -/
structure TickEnv where
  info : NowPlaying
  now : ℤ
  rotationOutcome : Option String
  http : String → ImgResponse
  ssdpLocs : List String

/-- Python `any(info.values())` over the five playback-record fields. -/
def anyTruthy (info : NowPlaying) : Bool :=
  info.artist.truthy || info.title.truthy || info.album.truthy ||
  info.album_art_uri.truthy || info.state.truthy

/-- The derived track identity, artist and title joined by " - "
(go_wiim.py line 217). -/
def trackIdOf (info : NowPlaying) : String :=
  jsonOrEmptyStr info.artist ++ " - " ++ jsonOrEmptyStr info.title

/-- The lower-cased state string of the record (go_wiim.py line 216). -/
def stateOf (info : NowPlaying) : String :=
  strLower (jsonOrEmptyStr info.state)

/-- Python `str(v)` on the record values this code path meets (strings; only
consulted on truthy values). -/
def pyToStrJ (j : Json) : String :=
  match j with
  | .str s => s
  | _ => ""

/-- The `album_art_uri` normalization (go_wiim.py lines 220-223): a
truthy value not starting with `http://`/`https://` becomes `None`. -/
def normalizeArtUri (j : Json) : Json :=
  if j.truthy &&
      !(strStarts (pyToStrJ j) "http://" || strStarts (pyToStrJ j) "https://") then
    .null
  else j

/-- The 720x720 black placeholder (go_wiim.py line 283). -/
def placeholderImage : PILImage := .new "RGB" 720 720 "black"

/-- Whether the stripped artist or title carries an unknown/not-available
marker, case-insensitively (go_wiim.py lines 260-263). -/
def isPlaceholderName (artist title : String) : Bool :=
  let low_artist := strLower artist
  let low_title := strLower title
  strContains low_artist "unknow" || strContains low_artist "unknown" ||
  strContains low_artist "n/a" || strContains low_title "unknow" ||
  strContains low_title "unknown" || strContains low_title "n/a"

/-- Whether the failure cache holds a live (truthy and younger than the
cooldown) entry for the track key (go_wiim.py lines 266-269). -/
def cooldownLive (failCache : FailCache) (key : String)
    (now cooldown : ℤ) : Bool :=
  match dictGet failCache key with
  | some t => decide (t ≠ 0) && decide (now - t < cooldown)
  | none => false

/-- The combined `skip_probe` decision (go_wiim.py lines 256-269),
taking the already-stripped artist and title. -/
def skip_probe (cfg : Settings) (now : ℤ) (artist title : String)
    (failCache : FailCache) : Bool :=
  artist.isEmpty || title.isEmpty || isPlaceholderName artist title ||
  cooldownLive failCache (artist ++ " - " ++ title) now cfg.art_failure_cooldown

/-- The artwork-resolution section of a changed-track tick (go_wiim.py
lines 244-283): direct `album_art_uri` fetch, then — unless skipped for
empty/placeholder names or a live failure-cache entry — the
`wiim_upnp.get_image_data` probe, falling back to the black placeholder.
Returns (image, actions, failure cache after, endpoint cache after).
`Image.open` on truthy bytes is modelled as succeeding. -/
def resolveArtStep (cfg : Settings) (env : TickEnv) (info : NowPlaying)
    (failCache : FailCache) (cachedBases : List String) :
    PILImage × List Action × FailCache × List String :=
  let uriActions : List Action :=
    if info.album_art_uri.truthy then [.fetchArtUri (pyToStrJ info.album_art_uri)]
    else []
  let pil0 : Option PILImage :=
    if info.album_art_uri.truthy then fetch_image env.http (pyToStrJ info.album_art_uri)
    else none
  match pil0 with
  | some img => (img, uriActions, failCache, cachedBases)
  | none =>
    let artist := strStrip (jsonOrEmptyStr info.artist)
    let title := strStrip (jsonOrEmptyStr info.title)
    let track_key := artist ++ " - " ++ title
    if skip_probe cfg env.now artist title failCache then
      (placeholderImage, uriActions, failCache, cachedBases)
    else
      let (data, cachedBases', attempts) :=
        get_image_data cfg env.http cachedBases env.ssdpLocs artist title
      let probeActions :=
        Action.invokeResolver artist title :: attempts.map Action.resolverAttempt
      if truthyBytes data then
        ((PILImage.opened (data.getD [])), uriActions ++ probeActions,
         failCache, cachedBases')
      else
        (placeholderImage, uriActions ++ probeActions,
         dictSet failCache track_key env.now, cachedBases')

/-- One iteration of the poll loop (go_wiim.py lines 176-301): empty
counting and rotation, `album_art_uri` normalization, stop handling,
the hidden-while-playing forced re-evaluation, change detection, art
resolution and the presentation update (which leaves the display
showing). -/
def tick (cfg : Settings) (s : LoopState) (env : TickEnv) :
    LoopState × List Action :=
  let info0 := env.info
  if !(anyTruthy info0) && decide (cfg.base_empty_threshold ≤ s.base_empty_count + 1) then
    match env.rotationOutcome with
    | some nb => ({ s with base := nb, base_empty_count := 0 }, [.rotationAttempt])
    | none => ({ s with base_empty_count := s.base_empty_count + 1 }, [.rotationAttempt])
  else
  let s1 := if anyTruthy info0 then { s with base_empty_count := 0 }
            else { s with base_empty_count := s.base_empty_count + 1 }
  let state := stateOf info0
  let track_id := trackIdOf info0
  let info := { info0 with album_art_uri := normalizeArtUri info0.album_art_uri }
  if state == "stop" || state == "stopped" || state == "idle" then
    ({ s1 with is_showing := false }, [.hideAlbum])
  else
  let s2 := if strStarts state "play" && !s1.is_showing then
              { s1 with previous_track := none }
            else s1
  if some track_id = s2.previous_track then (s2, [])
  else
    let (pil, acts, cache', bases') :=
      resolveArtStep cfg env info s2.failed_art_cache s2.cachedBases
    ({ s2 with previous_track := some track_id, failed_art_cache := cache',
               cachedBases := bases', is_showing := true },
     acts ++ [.displayUpdate pil (jsonOrEmptyStr info.title)
                (jsonOrEmptyStr info.artist) (jsonOrEmptyStr info.album)])

/- ---------------------------------------------------------------------
Action classification helpers
--------------------------------------------------------------------- -/

/-- Whether an action invokes the Album-Art Resolver
(`wiim_upnp.get_image_data`). -/
def Action.isResolverInvocation : Action → Bool
  | .invokeResolver _ _ => true
  | _ => false

/-- Whether an action is an HTTP probe attempt made inside the Resolver. -/
def Action.isProbeAttempt : Action → Bool
  | .resolverAttempt _ => true
  | _ => false

/-- Whether an action hands data to the presentation update entry point. -/
def Action.isDisplayUpdate : Action → Bool
  | .displayUpdate _ _ _ _ => true
  | _ => false

/- ---------------------------------------------------------------------
Theorems
--------------------------------------------------------------------- -/

/-- C3: a tap sequence that leaves exactly 2 timestamps in the sliding
tap window classifies as the skip-to-next action, and the `_do_next`
handler then issues exactly one device command when the first call
reports success and exactly two commands (one retry) when it reports
failure — never a third. -/
theorem c3_two_taps_next_single_retry (times : List ℤ) (now window : ℤ)
    (results : Nat → Bool)
    (h : (evictOld (times ++ [now]) now window).length = 2) :
    (touch_callback times now window).2 = TouchAction.nextTrack ∧
    (results 0 = true → _do_next true true results = 1) ∧
    (results 0 = false → _do_next true true results = 2) := by
  refine ⟨?_, ?_, ?_⟩
  · unfold touch_callback
    simp [h]
  · intro h0
    simp [_do_next, h0]
  · intro h0
    simp [_do_next, h0]

/-- Witness for C3: two taps at times 0 and 1 inside a window of 2,
with a failing first command call. -/
theorem c3_two_taps_next_single_retry_witness :
    (touch_callback [0] 1 2).2 = TouchAction.nextTrack ∧
    _do_next true true (fun _ => false) = 2 :=
  ⟨(c3_two_taps_next_single_retry [0] 1 2 (fun _ => false) (by decide)).1,
   (c3_two_taps_next_single_retry [0] 1 2 (fun _ => false) (by decide)).2.2 rfl⟩

/-- Applying absent metadata leaves the record unchanged. -/
theorem applyMeta_none (r : NowPlaying) : applyMeta none r = r := rfl

/-- Applying an absent status leaves the record unchanged. -/
theorem applyStatus_none (r : NowPlaying) : applyStatus none r = r := rfl

/-- The status half touches only the state field. -/
theorem applyStatus_preserves_meta_fields (s : Option Json) (r : NowPlaying) :
    (applyStatus s r).artist = r.artist ∧ (applyStatus s r).title = r.title ∧
    (applyStatus s r).album = r.album ∧
    (applyStatus s r).album_art_uri = r.album_art_uri := by
  cases s with
  | none => exact ⟨rfl, rfl, rfl, rfl⟩
  | some st =>
    simp only [applyStatus]
    split <;> simp

/-- The metadata half never touches the state field. -/
theorem applyMeta_preserves_state (m : Option Json) (r : NowPlaying) :
    (applyMeta m r).state = r.state := by
  cases m with
  | none => rfl
  | some mm =>
    simp only [applyMeta]
    split
    · split <;> rfl
    · rfl

/-- C2 (amended): the Now-Playing Fetcher absorbs network-level failures
— a timeout or malformed body on the metadata query leaves the four
metadata fields unknown, and on the status query leaves the state
unknown — and a malformed body always degrades to absent data.  (The
original claim also said a non-2xx response is never used as valid data;
the code does not inspect the status code, see the counterexample.) -/
theorem c2_fetcher_degrades_never_fatal (net : String → HttpJsonResponse)
    (base_url : String) :
    (_fetch_json HttpJsonResponse.netError = none) ∧
    (∀ st : Nat, _fetch_json (HttpJsonResponse.resp st none) = none) ∧
    (_fetch_json (net (urljoinModel (_normalise_base base_url)
        "/httpapi.asp?command=getMetaInfo")) = none →
      (get_now_playing net base_url).artist = Json.null ∧
      (get_now_playing net base_url).title = Json.null ∧
      (get_now_playing net base_url).album = Json.null ∧
      (get_now_playing net base_url).album_art_uri = Json.null) ∧
    (_fetch_json (net (urljoinModel (_normalise_base base_url)
        "/httpapi.asp?command=getPlayerStatus")) = none →
      (get_now_playing net base_url).state = Json.null) := by
  refine ⟨rfl, fun _ => rfl, ?_, ?_⟩
  · intro hm
    simp only [get_now_playing]
    split
    · exact ⟨rfl, rfl, rfl, rfl⟩
    · split
      · exact ⟨rfl, rfl, rfl, rfl⟩
      · rw [hm, applyMeta_none]
        exact applyStatus_preserves_meta_fields _ _
  · intro hs
    simp only [get_now_playing]
    split
    · rfl
    · split
      · rfl
      · rw [hs, applyStatus_none]
        exact applyMeta_preserves_state _ _

/-- Witness for C2 (amended): against an endpoint where every request
fails at the network level, the record is all-unknown. -/
theorem c2_fetcher_degrades_never_fatal_witness :
    (get_now_playing (fun _ => HttpJsonResponse.netError) "https://dev").artist
      = Json.null ∧
    (get_now_playing (fun _ => HttpJsonResponse.netError) "https://dev").state
      = Json.null :=
  ⟨((c2_fetcher_degrades_never_fatal (fun _ => HttpJsonResponse.netError)
      "https://dev").2.2.1 rfl).1,
   (c2_fetcher_degrades_never_fatal (fun _ => HttpJsonResponse.netError)
      "https://dev").2.2.2 rfl⟩

/-- The metadata body of the C2 counterexample. -/
def c2meta_body : Json :=
  .obj [("metaData", .obj [("artist", .str "X"), ("title", .str "T")])]

/-- The network oracle of the C2 counterexample: the metadata query gets
an HTTP 404 whose body nevertheless parses as JSON; everything else
fails. -/
def c2net : String → HttpJsonResponse := fun u =>
  if u = "https://dev/httpapi.asp?command=getMetaInfo" then
    .resp 404 (some c2meta_body)
  else .netError

/-- C2 counterexample: the claim says a non-2xx response from the
control API is treated as absent data and never as valid data, but
`get_now_playing` never inspects the status code — a 404 response with a
JSON body fills the artist field. -/
theorem c2_counterexample :
    c2net "https://dev/httpapi.asp?command=getMetaInfo"
      = HttpJsonResponse.resp 404 (some c2meta_body) ∧
    (get_now_playing c2net "https://dev").artist = Json.str "X" := by
  exact ⟨rfl, rfl⟩

/-- C8: for the guess `http://10.0.0.5:80`, the Candidate Prober builds
the variants in the order as-given, same host with default port for its
scheme, opposite scheme with explicit port, opposite scheme with default
port; when only `https://10.0.0.5:443` answers HTTP 200 with a JSON
body, validation succeeds and caches the https variant (the host-only
https form, which targets port 443) instead of failing. -/
theorem c8_prober_scheme_port_fallback
    (server : String × String × Nat → HttpJsonResponse) (j : Json)
    (hOK : server ("https", "10.0.0.5", 443) = HttpJsonResponse.resp 200 (some j))
    (hOther : ∀ t, t ≠ ("https", "10.0.0.5", 443) → server t = HttpJsonResponse.netError) :
    testHttpapiCandidates "http://10.0.0.5:80"
      = ["http://10.0.0.5:80", "http://10.0.0.5", "https://10.0.0.5:80",
         "https://10.0.0.5"] ∧
    (_test_httpapi (fun u => server (effectiveTarget u)) [] "http://10.0.0.5:80").1
      = true ∧
    (_test_httpapi (fun u => server (effectiveTarget u)) [] "http://10.0.0.5:80").2.1
      = ["https://10.0.0.5"] := by
  have h80 : server ("http", "10.0.0.5", 80) = HttpJsonResponse.netError :=
    hOther _ (by decide)
  have h80s : server ("https", "10.0.0.5", 80) = HttpJsonResponse.netError :=
    hOther _ (by decide)
  have t1 : try_one (fun u => server (effectiveTarget u)) "http://10.0.0.5:80" = false := by
    simp only [try_one]
    rw [show effectiveTarget (urljoinModel "http://10.0.0.5:80" apiPath)
          = ("http", "10.0.0.5", 80) from by decide, h80]
  have t2 : try_one (fun u => server (effectiveTarget u)) "http://10.0.0.5" = false := by
    simp only [try_one]
    rw [show effectiveTarget (urljoinModel "http://10.0.0.5" apiPath)
          = ("http", "10.0.0.5", 80) from by decide, h80]
  have t3 : try_one (fun u => server (effectiveTarget u)) "https://10.0.0.5:80" = false := by
    simp only [try_one]
    rw [show effectiveTarget (urljoinModel "https://10.0.0.5:80" apiPath)
          = ("https", "10.0.0.5", 80) from by decide, h80s]
  have t4 : try_one (fun u => server (effectiveTarget u)) "https://10.0.0.5" = true := by
    simp only [try_one]
    rw [show effectiveTarget (urljoinModel "https://10.0.0.5" apiPath)
          = ("https", "10.0.0.5", 443) from by decide, hOK]
  refine ⟨by decide, ?_, ?_⟩ <;>
  · unfold _test_httpapi
    rw [show testHttpapiCandidates "http://10.0.0.5:80"
          = ["http://10.0.0.5:80", "http://10.0.0.5", "https://10.0.0.5:80",
             "https://10.0.0.5"] from by decide]
    simp only [testLoop, t1, t2, t3, t4, if_false, if_true, Bool.false_eq_true,
      ite_false, ite_true]
    try rfl

/-- The server of the C8 witness: only the https/443 target answers. -/
def c8server : String × String × Nat → HttpJsonResponse := fun t =>
  if t = ("https", "10.0.0.5", 443) then
    HttpJsonResponse.resp 200 (some (Json.obj []))
  else HttpJsonResponse.netError

/-- Witness for C8 at the concrete single-endpoint server. -/
theorem c8_prober_scheme_port_fallback_witness :
    (_test_httpapi (fun u => c8server (effectiveTarget u)) [] "http://10.0.0.5:80").1
      = true ∧
    (_test_httpapi (fun u => c8server (effectiveTarget u)) [] "http://10.0.0.5:80").2.1
      = ["https://10.0.0.5"] :=
  ⟨(c8_prober_scheme_port_fallback c8server (Json.obj []) rfl
      (fun t ht => by unfold c8server; rw [if_neg ht])).2.1,
   (c8_prober_scheme_port_fallback c8server (Json.obj []) rfl
      (fun t ht => by unfold c8server; rw [if_neg ht])).2.2⟩

/-- C6 (amended): a warmup call that finds the cache non-empty returns
it immediately, without probing or discovery; and a first call from the
empty cache stores exactly what it returns.  (When the first call finds
nothing responsive it caches the empty list, so later calls probe again
— see the counterexample.) -/
theorem c6_warmup_populate_once (env env2 : WarmupEnv) (cfg cfg2 : Settings)
    (cached : List String) (h : cached ≠ []) :
    warmup env2 cfg2 cached = ⟨cached, cached, false, []⟩ ∧
    (warmup env cfg []).cached = (warmup env cfg []).bases := by
  constructor
  · unfold warmup
    simp [h]
  · rfl

/-- Witness for C6 (amended): a second call on a one-element cache is
the identity and does not probe. -/
theorem c6_warmup_populate_once_witness :
    warmup ⟨fun _ => HttpJsonResponse.netError, fun _ => none,
        fun _ => ImgResponse.failure, []⟩
      ⟨true, "", "", 30, 5⟩ ["http://10.0.0.9:80"]
      = ⟨["http://10.0.0.9:80"], ["http://10.0.0.9:80"], false, []⟩ :=
  (c6_warmup_populate_once
    ⟨fun _ => HttpJsonResponse.netError, fun _ => none, fun _ => ImgResponse.failure, []⟩
    ⟨fun _ => HttpJsonResponse.netError, fun _ => none, fun _ => ImgResponse.failure, []⟩
    ⟨true, "", "", 30, 5⟩ ⟨true, "", "", 30, 5⟩
    ["http://10.0.0.9:80"] (by simp)).1

/-- The environment of the C6 counterexample: a configured base that
never answers, discovery finding nothing. -/
def c6env : WarmupEnv :=
  ⟨fun _ => HttpJsonResponse.netError, fun _ => none,
   fun _ => ImgResponse.failure, []⟩

/-- The configuration of the C6 counterexample. -/
def c6cfg : Settings := ⟨true, "", "http://10.0.0.9:80", 30, 5⟩

/-- C6 counterexample: when the first call finds nothing responsive it
caches the empty list, and — the empty cache being falsy — the next call
runs the whole discovery/probe pass again instead of returning the
cached set immediately. -/
theorem c6_counterexample :
    (warmup c6env c6cfg []).cached = [] ∧
    (warmup c6env c6cfg ((warmup c6env c6cfg []).cached)).probed = true ∧
    (warmup c6env c6cfg ((warmup c6env c6cfg []).cached)).attempts ≠ [] := by
  refine ⟨by decide, by decide, by decide⟩

/-- C9 (amended): the guarded cache append is idempotent — adding the
same Endpoint twice leaves it in the sequence exactly once — and the
append operation itself never removes an element.  (A warmup pass can
still remove endpoints wholesale, see the counterexample.) -/
theorem c9_cache_add_idempotent_monotone (cached : List String) (b x : String)
    (h : cached.count b ≤ 1) :
    (addBase (addBase cached b) b).count b = 1 ∧
    (x ∈ cached → x ∈ addBase cached b) := by
  constructor
  · unfold addBase
    by_cases hb : b ∈ cached
    · have h1 : 0 < cached.count b := List.count_pos_iff.mpr hb
      simp only [hb, if_true, if_pos hb]
      omega
    · have h0 : cached.count b = 0 := List.count_eq_zero.mpr hb
      simp [hb, List.count_append, h0]
  · intro hx
    unfold addBase
    split
    · exact hx
    · exact List.mem_append_left _ hx

/-- Witness for C9 (amended) on a concrete cache. -/
theorem c9_cache_add_idempotent_monotone_witness :
    (addBase (addBase ["http://a"] "http://b") "http://b").count "http://b" = 1 ∧
    ("http://a" ∈ addBase ["http://a"] "http://b") :=
  ⟨(c9_cache_add_idempotent_monotone ["http://a"] "http://b" "http://a"
      (by decide)).1,
   (c9_cache_add_idempotent_monotone ["http://a"] "http://b" "http://a"
      (by decide)).2 (by decide)⟩

/-- The configuration of the C9 counterexample. -/
def c9cfg : Settings := ⟨true, "", "http://10.0.0.5:80", 30, 5⟩

/-- The environment of the C9 counterexample: only the https/443 target
answers the API probe; discovery finds nothing. -/
def c9env : WarmupEnv :=
  ⟨fun u => c8server (effectiveTarget u), fun _ => none,
   fun _ => ImgResponse.failure, []⟩

/-- C9 counterexample: during a single warmup pass from the empty cache
the prober validates the https variant of the configured guess and
appends it to the endpoint cache, but the final wholesale assignment
`_CACHED_BASES = responsive` replaces the cache with the responsive
guess list, removing that endpoint again — so an added Endpoint is not
never-removed within the process lifetime. -/
theorem c9_counterexample :
    "https://10.0.0.5" ∈ (warmupProbeLoop c9env [] ["http://10.0.0.5:80"]).2.1 ∧
    (warmup c9env c9cfg []).cached = ["http://10.0.0.5:80"] ∧
    "https://10.0.0.5" ∉ (warmup c9env c9cfg []).cached := by
  refine ⟨by decide, by decide, by decide⟩

/-- A skip decision suppresses the resolver invocation and all its
probe attempts (go_wiim.py line 271 guards the whole call). -/
theorem resolveArtStep_skip_no_invocation (cfg : Settings) (env : TickEnv)
    (info : NowPlaying) (fc : FailCache) (cb : List String)
    (hskip : skip_probe cfg env.now (strStrip (jsonOrEmptyStr info.artist))
        (strStrip (jsonOrEmptyStr info.title)) fc = true) :
    (resolveArtStep cfg env info fc cb).2.1.any Action.isResolverInvocation
      = false ∧
    (resolveArtStep cfg env info fc cb).2.1.any Action.isProbeAttempt
      = false := by
  simp only [resolveArtStep]
  split
  · constructor <;>
    · split <;> simp [Action.isResolverInvocation, Action.isProbeAttempt]
  · rw [hskip]
    simp only [if_true]
    constructor <;>
    · split <;> simp [Action.isResolverInvocation, Action.isProbeAttempt]

/-- The configuration of the C1 counterexample: resolver enabled with an
explicit absolute artist/title template configured. -/
def c1cfg : Settings := ⟨true, "http://art.example/{artist}/{track}", "", 30, 5⟩

/-- The playback record of the C1 counterexample: playing, a title but
an empty artist. -/
def c1info : NowPlaying := ⟨.null, .str "Song", .null, .null, .str "play"⟩

/-- The tick environment of the C1 counterexample. -/
def c1env : TickEnv := ⟨c1info, 100, none, fun _ => ImgResponse.failure, []⟩

/-- The loop state of the C1 counterexample. -/
def c1s : LoopState := ⟨"http://base", none, fun _ => none, 0, [], true⟩

/-- C1 counterexample: an explicit template is configured, yet for a
record with an empty artist the tick performs no resolver invocation and
no resolver HTTP attempt at all — the caller-side skip conditions
suppress the whole `get_image_data` call, configured-template fetch
included, and the record falls through to the placeholder. -/
theorem c1_counterexample :
    c1cfg.wiim_albumart_url = "http://art.example/{artist}/{track}" ∧
    (tick c1cfg c1s c1env).2
      = [Action.displayUpdate placeholderImage "Song" "" ""] ∧
    (tick c1cfg c1s c1env).2.any Action.isResolverInvocation = false ∧
    (tick c1cfg c1s c1env).2.any Action.isProbeAttempt = false := by
  refine ⟨rfl, by decide, by decide, by decide⟩

/-- C1 (amended): the skip conditions (empty or placeholder-marked
artist/title, live failure-cache entry) gate the entire resolver
invocation, so they suppress the configured-template fetch as well as
common-path probing; when the resolver is invoked and an absolute
artist/title template is configured, that template — with artist and
title substituted — is the first URL fetched, before any common-path
probing. -/
theorem c1_template_gated_by_skip_conditions
    (cfg : Settings) (env : TickEnv) (info : NowPlaying)
    (fc : FailCache) (cb : List String)
    (http : String → ImgResponse) (cached ssdp : List String)
    (artist track : String)
    (hskip : skip_probe cfg env.now (strStrip (jsonOrEmptyStr info.artist))
        (strStrip (jsonOrEmptyStr info.title)) fc = true)
    (hen : cfg.wiim_enabled = true)
    (hne : cfg.wiim_albumart_url.isEmpty = false)
    (habs : (strStarts cfg.wiim_albumart_url "http://"
        || strStarts cfg.wiim_albumart_url "https://") = true) :
    ((resolveArtStep cfg env info fc cb).2.1.any Action.isResolverInvocation
        = false ∧
     (resolveArtStep cfg env info fc cb).2.1.any Action.isProbeAttempt
        = false) ∧
    (get_image_data cfg http cached ssdp artist track).2.2.head?
      = some (formatArtistTrack cfg.wiim_albumart_url
          (quote_plus (strStrip artist)) (quote_plus (strStrip track))) := by
  constructor
  · exact resolveArtStep_skip_no_invocation cfg env info fc cb hskip
  · simp only [get_image_data, hen, hne, habs, Bool.not_true, Bool.not_false,
      Bool.false_eq_true, if_false, if_true, ite_true, ite_false]
    cases htry : tryUrl http (formatArtistTrack cfg.wiim_albumart_url
        (quote_plus (strStrip artist)) (quote_plus (strStrip track))) with
    | some d => simp [htry]
    | none =>
      simp only [htry]
      split <;> (try split) <;> (try split) <;> simp

/-- Witness for C1 (amended): the empty-artist record skips the resolver
entirely, and an invoked resolver with the configured absolute template
fetches the substituted template URL first. -/
theorem c1_template_gated_by_skip_conditions_witness :
    (resolveArtStep c1cfg c1env c1info (fun _ => none) []).2.1.any Action.isResolverInvocation
      = false ∧
    (get_image_data c1cfg (fun _ => ImgResponse.failure) [] [] "A" "B").2.2.head?
      = some "http://art.example/A/B" := by
  refine ⟨(c1_template_gated_by_skip_conditions c1cfg c1env c1info (fun _ => none) []
      (fun _ => ImgResponse.failure) [] [] "A" "B"
      (by decide) rfl (by decide) (by decide)).1.1, ?_⟩
  rw [(c1_template_gated_by_skip_conditions c1cfg c1env c1info (fun _ => none) []
      (fun _ => ImgResponse.failure) [] [] "A" "B"
      (by decide) rfl (by decide) (by decide)).2]
  decide

/-- Lookup after a store finds the stored timestamp. -/
theorem dictGet_dictSet_self (d : FailCache) (k : String) (v : ℤ) :
    dictGet (dictSet d k v) k = some v := by
  simp [dictGet, dictSet]

/-- A store touches no other key. -/
theorem dictGet_dictSet_ne (d : FailCache) (k k' : String) (v : ℤ)
    (h : k' ≠ k) :
    dictGet (dictSet d k v) k' = dictGet d k' := by
  simp [dictGet, dictSet, h]

/-- The failure cache leaving one `resolveArtStep` is either untouched,
or has exactly the current track key stored at the tick time — and the
latter happens only when the resolver was invoked and returned no truthy
bytes. -/
theorem resolveArtStep_cache (cfg : Settings) (env : TickEnv)
    (info : NowPlaying) (fc : FailCache) (cb : List String) :
    (resolveArtStep cfg env info fc cb).2.2.1 = fc ∨
    ((resolveArtStep cfg env info fc cb).2.2.1
        = dictSet fc (strStrip (jsonOrEmptyStr info.artist) ++ " - "
            ++ strStrip (jsonOrEmptyStr info.title)) env.now ∧
     (resolveArtStep cfg env info fc cb).2.1.any Action.isResolverInvocation
        = true ∧
     truthyBytes (get_image_data cfg env.http cb env.ssdpLocs
        (strStrip (jsonOrEmptyStr info.artist))
        (strStrip (jsonOrEmptyStr info.title))).1 = false) := by
  simp only [resolveArtStep]
  split
  · left
    rfl
  · split
    · left
      rfl
    · split
      · left
        rfl
      · right
        rename_i hdata
        refine ⟨rfl, ?_, by simpa using hdata⟩
        simp [Action.isResolverInvocation]

/-- C7: a NegativeArtCache entry with timestamp `t` suppresses probing
at every resolution attempt with `now - t` below the cooldown, and once
the cooldown has elapsed (and the other skip conditions are absent, with
no artwork URI) the probe runs again immediately; moreover the cache
changes only by storing the current track key at the tick time, and only
when the probing stage was reached and exhausted without truthy bytes.
The source samples `time.time()` once for the check and once for the
store within the same tick, modelled as the single tick time `env.now`;
real timestamps are positive (`0 < t`), which the `if last_fail:`
truthiness guard needs. -/
theorem c7_negative_cache_cooldown (cfg : Settings) (env : TickEnv)
    (info : NowPlaying) (fc : FailCache) (cb : List String) (t : ℤ) :
    (dictGet fc (strStrip (jsonOrEmptyStr info.artist) ++ " - "
          ++ strStrip (jsonOrEmptyStr info.title)) = some t →
      0 < t → env.now - t < cfg.art_failure_cooldown →
      (resolveArtStep cfg env info fc cb).2.1.any Action.isResolverInvocation
        = false) ∧
    (dictGet fc (strStrip (jsonOrEmptyStr info.artist) ++ " - "
          ++ strStrip (jsonOrEmptyStr info.title)) = some t →
      cfg.art_failure_cooldown ≤ env.now - t →
      (strStrip (jsonOrEmptyStr info.artist)).isEmpty = false →
      (strStrip (jsonOrEmptyStr info.title)).isEmpty = false →
      isPlaceholderName (strStrip (jsonOrEmptyStr info.artist))
          (strStrip (jsonOrEmptyStr info.title)) = false →
      info.album_art_uri = Json.null →
      (resolveArtStep cfg env info fc cb).2.1.any Action.isResolverInvocation
        = true) ∧
    (∀ k, dictGet (resolveArtStep cfg env info fc cb).2.2.1 k ≠ dictGet fc k →
      (resolveArtStep cfg env info fc cb).2.1.any Action.isResolverInvocation
          = true ∧
      truthyBytes (get_image_data cfg env.http cb env.ssdpLocs
          (strStrip (jsonOrEmptyStr info.artist))
          (strStrip (jsonOrEmptyStr info.title))).1 = false ∧
      k = strStrip (jsonOrEmptyStr info.artist) ++ " - "
          ++ strStrip (jsonOrEmptyStr info.title) ∧
      dictGet (resolveArtStep cfg env info fc cb).2.2.1 k = some env.now) := by
  refine ⟨?_, ?_, ?_⟩
  · intro hget ht hcool
    have hskip : skip_probe cfg env.now (strStrip (jsonOrEmptyStr info.artist))
        (strStrip (jsonOrEmptyStr info.title)) fc = true := by
      unfold skip_probe cooldownLive
      rw [hget]
      simp [ht.ne', hcool]
    exact (resolveArtStep_skip_no_invocation cfg env info fc cb hskip).1
  · intro hget hcool hA hT hP huri
    have hskip : skip_probe cfg env.now (strStrip (jsonOrEmptyStr info.artist))
        (strStrip (jsonOrEmptyStr info.title)) fc = false := by
      unfold skip_probe cooldownLive
      rw [hget]
      simp [hA, hT, hP, not_lt.mpr hcool]
    simp only [resolveArtStep, huri, Json.truthy, Bool.false_eq_true, if_false,
      ite_false, hskip]
    split <;> simp [Action.isResolverInvocation]
  · intro k hk
    rcases resolveArtStep_cache cfg env info fc cb with h | ⟨hc, hinv, hdata⟩
    · rw [h] at hk
      exact absurd rfl hk
    · by_cases hkk : k = strStrip (jsonOrEmptyStr info.artist) ++ " - "
          ++ strStrip (jsonOrEmptyStr info.title)
      · subst hkk
        exact ⟨hinv, hdata, rfl, by rw [hc]; exact dictGet_dictSet_self fc _ env.now⟩
      · rw [hc, dictGet_dictSet_ne fc _ k env.now hkk] at hk
        exact absurd rfl hk

/-- The configuration of the C7 witness (default 30-second cooldown). -/
def c7cfg : Settings := ⟨true, "", "", 30, 5⟩

/-- The record of the C7 witness. -/
def c7info : NowPlaying := ⟨.str "A", .str "T", .null, .null, .null⟩

/-- A failure cache holding an entry for the witness track at time 100. -/
def c7fc : FailCache := fun q => if q = "A - T" then some 100 else none

/-- A tick 10 seconds after the failure (inside the cooldown). -/
def c7envIn : TickEnv := ⟨c7info, 110, none, fun _ => ImgResponse.failure, []⟩

/-- A tick exactly at the cooldown boundary (allowed again). -/
def c7envOut : TickEnv := ⟨c7info, 130, none, fun _ => ImgResponse.failure, []⟩

/-- Witness for C7: 10 seconds after the failure the probe is skipped;
exactly 30 seconds after it runs again. -/
theorem c7_negative_cache_cooldown_witness :
    (resolveArtStep c7cfg c7envIn c7info c7fc []).2.1.any
      Action.isResolverInvocation = false ∧
    (resolveArtStep c7cfg c7envOut c7info c7fc []).2.1.any
      Action.isResolverInvocation = true :=
  ⟨(c7_negative_cache_cooldown c7cfg c7envIn c7info c7fc [] 100).1
      (by decide) (by decide) (by decide),
   (c7_negative_cache_cooldown c7cfg c7envOut c7info c7fc [] 100).2.1
      (by decide) (by decide) (by decide) (by decide) (by decide) rfl⟩

/-- Under the same-identity and no-force hypotheses a tick performs at
most a rotation attempt or a hide — never a resolution or an update. -/
theorem tick_same_identity_actions (cfg : Settings) (s : LoopState)
    (env : TickEnv)
    (hsame : s.previous_track = some (trackIdOf env.info))
    (hnoforce : (strStarts (stateOf env.info) "play" && !s.is_showing) = false) :
    (tick cfg s env).2 = [Action.rotationAttempt] ∨
    (tick cfg s env).2 = [Action.hideAlbum] ∨
    (tick cfg s env).2 = [] := by
  by_cases hT : anyTruthy env.info = true
  · simp only [tick, hT, Bool.not_true, Bool.false_and, Bool.false_eq_true,
      if_false, ite_false, eq_self_iff_true, if_true, ite_true]
    split
    · right
      left
      rfl
    · right
      right
      rw [show (strStarts (stateOf env.info) "play"
            && !({ s with base_empty_count := 0 } : LoopState).is_showing)
          = false from hnoforce]
      simp only [Bool.false_eq_true, if_false, ite_false]
      rw [if_pos (show some (trackIdOf env.info)
          = ({ s with base_empty_count := 0 } : LoopState).previous_track
          from hsame.symm)]
  · have hT' : anyTruthy env.info = false := by
      revert hT
      cases anyTruthy env.info <;> simp
    simp only [tick, hT', Bool.not_false, Bool.true_and, Bool.false_eq_true,
      if_false, ite_false, eq_self_iff_true, if_true, ite_true]
    split
    · split
      · left
        rfl
      · left
        rfl
    · split
      · right
        left
        rfl
      · right
        right
        rw [show (strStarts (stateOf env.info) "play"
              && !({ s with base_empty_count := s.base_empty_count + 1 }
                  : LoopState).is_showing) = false from hnoforce]
        simp only [Bool.false_eq_true, if_false, ite_false]
        rw [if_pos (show some (trackIdOf env.info)
            = ({ s with base_empty_count := s.base_empty_count + 1 }
                : LoopState).previous_track from hsame.symm)]

/-- C4 (amended): for every pair of consecutive poll ticks whose records
yield the same {artist, title} key, the second tick invokes neither the
Album-Art Resolver nor the presentation update — unless that tick's
record reports a playing state while the display is hidden, in which
case the code deliberately invalidates the last-seen identity
(go_wiim.py lines 237-239) and resolves again. -/
theorem c4_same_identity_no_reresolution (cfg : Settings) (s : LoopState)
    (env : TickEnv)
    (hsame : s.previous_track = some (trackIdOf env.info))
    (hnoforce : (strStarts (stateOf env.info) "play" && !s.is_showing) = false) :
    (tick cfg s env).2.any Action.isResolverInvocation = false ∧
    (tick cfg s env).2.any Action.isDisplayUpdate = false := by
  rcases tick_same_identity_actions cfg s env hsame hnoforce with h | h | h <;>
    rw [h] <;> exact ⟨rfl, rfl⟩

/-- The configuration of the C4 witness and counterexample. -/
def c4cfg : Settings := ⟨true, "", "", 30, 5⟩

/-- A stopped-state record with identity "A - T". -/
def c4infoStop : NowPlaying := ⟨.str "A", .str "T", .null, .null, .str "stop"⟩

/-- A playing-state record with the same identity "A - T". -/
def c4infoPlay : NowPlaying := ⟨.str "A", .str "T", .null, .null, .str "play"⟩

/-- A loop state that has already seen "A - T", display showing. -/
def c4s : LoopState := ⟨"http://base", some "A - T", fun _ => none, 0, [], true⟩

/-- The first tick of the C4 counterexample (stopped record). -/
def c4env1 : TickEnv := ⟨c4infoStop, 100, none, fun _ => ImgResponse.failure, []⟩

/-- The second tick of the C4 counterexample (playing record). -/
def c4env2 : TickEnv := ⟨c4infoPlay, 101, none, fun _ => ImgResponse.failure, []⟩

/-- Witness for C4 (amended): a playing record with unchanged identity
on a showing display produces no resolution and no update. -/
theorem c4_same_identity_no_reresolution_witness :
    (tick c4cfg c4s c4env2).2.any Action.isResolverInvocation = false ∧
    (tick c4cfg c4s c4env2).2.any Action.isDisplayUpdate = false :=
  c4_same_identity_no_reresolution c4cfg c4s c4env2 rfl (by decide)

/-- C4 counterexample: two consecutive ticks whose records both yield
identity "A - T"; the first (stopped) hides the display, and the second
(playing while hidden) invokes the Resolver and the presentation update
again, refuting that identity equality is the sole re-resolution
trigger. -/
theorem c4_counterexample :
    trackIdOf c4infoStop = trackIdOf c4infoPlay ∧
    c4s.previous_track = some (trackIdOf c4infoStop) ∧
    (tick c4cfg c4s c4env1).2 = [Action.hideAlbum] ∧
    (tick c4cfg (tick c4cfg c4s c4env1).1 c4env2).2.any
      Action.isResolverInvocation = true ∧
    (tick c4cfg (tick c4cfg c4s c4env1).1 c4env2).2.any
      Action.isDisplayUpdate = true := by
  refine ⟨rfl, rfl, by decide, by decide, by decide⟩

/-- The artwork-resolution section never emits loop-level actions
(rotation, hide, update): its actions are art fetches only. -/
theorem resolveArtStep_no_loop_actions (cfg : Settings) (env : TickEnv)
    (info : NowPlaying) (fc : FailCache) (cb : List String) :
    (resolveArtStep cfg env info fc cb).2.1.any
      (fun a => a == Action.rotationAttempt || a == Action.hideAlbum
        || Action.isDisplayUpdate a) = false := by
  simp only [resolveArtStep]
  split
  · split <;> simp [Action.isDisplayUpdate]
  · split
    · split <;> simp [Action.isDisplayUpdate]
    · split <;>
      · split <;> simp [Action.isDisplayUpdate]

/-- Membership form of the previous lemma, convenient for unification. -/
theorem resolveArtStep_mem_not_loop (cfg : Settings) (env : TickEnv)
    (info : NowPlaying) (fc : FailCache) (cb : List String) (a : Action)
    (ha : a ∈ (resolveArtStep cfg env info fc cb).2.1) :
    ¬ ((a == Action.rotationAttempt || a == Action.hideAlbum
        || Action.isDisplayUpdate a) = true) :=
  (List.any_eq_false.mp (resolveArtStep_no_loop_actions cfg env info fc cb)) a ha

/-- A tick whose empty-count condition is not met performs no rotation
attempt, whatever else it does. -/
theorem tick_no_rotation_below_threshold (cfg : Settings) (s : LoopState)
    (env : TickEnv)
    (hc : (!(anyTruthy env.info)
        && decide (cfg.base_empty_threshold ≤ s.base_empty_count + 1)) = false) :
    Action.rotationAttempt ∉ (tick cfg s env).2 := by
  simp only [tick, hc, Bool.false_eq_true, if_false, ite_false]
  intro hmem
  repeat' split at hmem
  all_goals try simp at hmem
  all_goals
  · have h2 := resolveArtStep_mem_not_loop cfg env _ _ _ _ hmem
    simp [Action.isDisplayUpdate] at h2

/-- C5: a rotation attempt occurs in a tick exactly when the record is
all-null and the incremented EmptyResponseCounter reaches the threshold;
any non-null record resets the counter to 0 on its own tick; and when
the rotation finds an alternative endpoint, the base switches to it and
the counter resets to 0. -/
theorem c5_empty_counter_gates_rotation (cfg : Settings) (s : LoopState)
    (env : TickEnv) (nb : String) :
    (Action.rotationAttempt ∈ (tick cfg s env).2 ↔
      (anyTruthy env.info = false ∧
       cfg.base_empty_threshold ≤ s.base_empty_count + 1)) ∧
    (anyTruthy env.info = true → (tick cfg s env).1.base_empty_count = 0) ∧
    (anyTruthy env.info = false →
      cfg.base_empty_threshold ≤ s.base_empty_count + 1 →
      env.rotationOutcome = some nb →
      (tick cfg s env).1.base = nb ∧
      (tick cfg s env).1.base_empty_count = 0) := by
  refine ⟨⟨?_, ?_⟩, ?_, ?_⟩
  · intro hmem
    by_cases hcond : (!(anyTruthy env.info)
        && decide (cfg.base_empty_threshold ≤ s.base_empty_count + 1)) = true
    · simp only [Bool.and_eq_true, Bool.not_eq_true', decide_eq_true_eq] at hcond
      exact hcond
    · exact absurd hmem (tick_no_rotation_below_threshold cfg s env
        (Bool.eq_false_iff.mpr hcond))
  · rintro ⟨h1, h2⟩
    simp only [tick, h1, Bool.not_false, Bool.true_and,
      decide_eq_true_eq, if_pos h2]
    split <;> simp
  · intro h1
    simp only [tick, h1, Bool.not_true, Bool.false_and, Bool.false_eq_true,
      if_false, ite_false, eq_self_iff_true, if_true, ite_true]
    repeat' split
    all_goals rfl
  · intro h1 h2 h3
    simp only [tick, h1, h3, Bool.not_false, Bool.true_and,
      decide_eq_true_eq, if_pos h2]
    simp

/-- The configuration of the C5 and C10 witnesses (threshold 5). -/
def c5cfg : Settings := ⟨true, "", "", 30, 5⟩

/-- A loop state with 4 consecutive empties already counted. -/
def c5s : LoopState := ⟨"http://base", none, fun _ => none, 4, [], true⟩

/-- An all-null tick whose rotation attempt finds a new base. -/
def c5envEmpty : TickEnv :=
  ⟨emptyNowPlaying, 100, some "http://new", fun _ => ImgResponse.failure, []⟩

/-- A tick with a non-null (playing) record. -/
def c5envFull : TickEnv :=
  ⟨⟨.str "A", .str "T", .null, .null, .str "play"⟩, 100, none,
   fun _ => ImgResponse.failure, []⟩

/-- Witness for C5: the fifth consecutive empty (threshold 5) rotates to
the discovered base and resets the counter; a non-null record resets it. -/
theorem c5_empty_counter_gates_rotation_witness :
    Action.rotationAttempt ∈ (tick c5cfg c5s c5envEmpty).2 ∧
    (tick c5cfg c5s c5envFull).1.base_empty_count = 0 ∧
    (tick c5cfg c5s c5envEmpty).1.base = "http://new" ∧
    (tick c5cfg c5s c5envEmpty).1.base_empty_count = 0 :=
  ⟨(c5_empty_counter_gates_rotation c5cfg c5s c5envEmpty "http://new").1.mpr
      ⟨by decide, by decide⟩,
   (c5_empty_counter_gates_rotation c5cfg c5s c5envFull "x").2.1 (by decide),
   ((c5_empty_counter_gates_rotation c5cfg c5s c5envEmpty "http://new").2.2
      (by decide) (by decide) rfl).1,
   ((c5_empty_counter_gates_rotation c5cfg c5s c5envEmpty "http://new").2.2
      (by decide) (by decide) rfl).2⟩

/-- C10: an all-null record while the consecutive-empty count is below
the rotation threshold is not skipped: it flows through the state
machine with a state that is neither stopped nor playing, the
TrackIdentity becomes " - ", and when that differs from the last-seen
identity the tick pushes the 720x720 black placeholder with empty text
fields to the presentation update entry point and records " - " as the
last-seen identity. -/
theorem c10_allnull_tick_placeholder (cfg : Settings) (s : LoopState)
    (env : TickEnv)
    (hnull : env.info = emptyNowPlaying)
    (hbelow : s.base_empty_count + 1 < cfg.base_empty_threshold)
    (hprev : s.previous_track ≠ some " - ") :
    trackIdOf env.info = " - " ∧
    stateOf env.info = "" ∧
    (tick cfg s env).2 = [Action.displayUpdate placeholderImage "" "" ""] ∧
    (tick cfg s env).1.previous_track = some " - " := by
  have hAT : anyTruthy emptyNowPlaying = false := rfl
  have hdec : decide (cfg.base_empty_threshold ≤ s.base_empty_count + 1)
      = false := decide_eq_false (by omega)
  have hstop : (stateOf emptyNowPlaying == "stop"
      || stateOf emptyNowPlaying == "stopped"
      || stateOf emptyNowPlaying == "idle") = false := by decide
  have hplay : strStarts (stateOf emptyNowPlaying) "play" = false := by decide
  refine ⟨by rw [hnull]; decide, by rw [hnull]; decide, ?_, ?_⟩ <;>
  · simp only [tick, hnull, hAT, hdec, hstop, hplay, Bool.not_false,
      Bool.true_and, Bool.false_eq_true, Bool.false_and, if_false, ite_false]
    rw [if_neg (show ¬ some (trackIdOf emptyNowPlaying)
        = ({ s with base_empty_count := s.base_empty_count + 1 }
            : LoopState).previous_track from fun hh => hprev hh.symm)]
    rfl

/-- The loop state of the C10 witness (no track seen yet). -/
def c10s : LoopState := ⟨"http://base", none, fun _ => none, 0, [], true⟩

/-- The environment of the C10 witness: an all-null record. -/
def c10env : TickEnv :=
  ⟨emptyNowPlaying, 100, none, fun _ => ImgResponse.failure, []⟩

/-- Witness for C10 at a fresh loop state and an all-null record. -/
theorem c10_allnull_tick_placeholder_witness :
    (tick c5cfg c10s c10env).2
      = [Action.displayUpdate placeholderImage "" "" ""] ∧
    (tick c5cfg c10s c10env).1.previous_track = some " - " :=
  ⟨(c10_allnull_tick_placeholder c5cfg c10s c10env rfl (by decide)
      (by decide)).2.2.1,
   (c10_allnull_tick_placeholder c5cfg c10s c10env rfl (by decide)
      (by decide)).2.2.2⟩

end Wiim
